import Mathlib

/-!
Verification of `mapigator` (src/mapigator.py) against its specification.

The embedding is shallow: each Python function of the repository is
translated into a Lean definition over explicit data models of the
external world (the places-search provider's JSON responses, and the
rendered page driven through Selenium).  Python exceptions are modelled
with `Except`; JSON fields that may be absent are `Option`; the string
rendering of a JSON value (Python `str(...)`) is carried as the string
the value renders to.
-/

namespace Mapigator

/-! ## Model of the search provider (fetch_places, lines 38-82)

One provider response is a JSON object with an optional `results` array
(entries are opaque to `fetch_places`, hence the type parameter) and an
optional `next_page_token` string.  A run of the loop is modelled by the
list of responses the provider returns to the successive requests, in
arrival order.
-/

/-- One JSON response of the places endpoint, as read by `fetch_places`:
`results` if present is an array of place objects, `next_page_token` if
present is a string (which Python treats as falsy when empty). -/
structure PageResp (α : Type) where
  results : Option (List α)
  next_page_token : Option String
deriving DecidableEq, Repr

/-- Python truthiness of `data.get("next_page_token")`: `None` and the
empty string are falsy (`if not next_page_token: break`, line 75). -/
def tokenTruthy : Option String → Bool
  | none => false
  | some s => s ≠ ""

/-- `fetch_places` (lines 50-82), as a function of the responses the
provider returns in order: starting from `places = []`, each iteration
reads one response; if `"results" in data` its entries are appended,
otherwise the loop breaks (line 72); then the loop breaks if
`next_page_token` is falsy (line 76), else it sleeps and re-requests
with the token.  The accumulator-passing loop is written as direct
recursion returning the accumulated list. -/
def fetch_places {α : Type} : List (PageResp α) → List α
  | [] => []
  | p :: rest =>
    match p.results with
    | none => []
    | some rs => rs ++ (if tokenTruthy p.next_page_token then fetch_places rest else [])

/-- Observable events of one `fetch_places` run: an HTTP GET carrying
the current `pagetoken` parameter (absent on the first request), and a
`time.sleep` of the given number of seconds (line 78). -/
inductive FetchEvent where
  | request (pagetoken : Option String)
  | sleep (seconds : Nat)
deriving DecidableEq, Repr

/-- The event trace of the `fetch_places` loop (lines 56-78): `tok` is
the `pagetoken` parameter carried by the next request (`none` before a
first token is stored).  Each iteration issues the request, reads the
response; a missing `results` or a falsy token ends the loop; otherwise
`time.sleep(2)` precedes the next request, which carries the token.  The
final `[]` case records the request whose response is beyond the
modelled list. -/
def fetch_trace {α : Type} (tok : Option String) : List (PageResp α) → List FetchEvent
  | [] => [.request tok]
  | p :: rest =>
    .request tok ::
      (match p.results with
       | none => []
       | some _ =>
         if tokenTruthy p.next_page_token then
           .sleep 2 :: fetch_trace p.next_page_token rest
         else [])

/-- A run in which every response carries a `results` array and the
token chain terminates at the last response: every listed page is
consumed by the loop. -/
def allPagesConsumed {α : Type} : List (PageResp α) → Bool
  | [] => true
  | [p] => p.results.isSome && !tokenTruthy p.next_page_token
  | p :: rest => p.results.isSome && tokenTruthy p.next_page_token && allPagesConsumed rest

/-! ## Model of the rendered page and `scrape_reviews` (lines 85-140)

The Selenium-driven page is modelled by the outcome of each interaction
of `scrape_reviews` with it: whether `webdriver.Chrome` raises, whether
`driver.get` raises, whether the reveal button / scrollable panel are
found, whether the scroll script raises, and the review container
elements with their sub-elements.  `find_element` on a missing element
raises (modelled by `Option` being `none`); `find_elements` on a class
returns the (possibly empty) list of matches.
-/

/-- One `jftiEf` review container element, through the three lookups the
parse loop performs on it (lines 123-125): the `d4r55` author element's
text if present, the number of `kvMYJc` rating-marker sub-elements, and
the `wiI7pd` body element's text if present. -/
structure ReviewContainer where
  author : Option String
  markers : Nat
  body : Option String
deriving DecidableEq, Repr

/-- One dictionary appended to `reviews` (lines 127-131). -/
structure Review where
  author : String
  rating : Nat
  text : String
deriving DecidableEq, Repr

/-- The behaviour of one invocation's rendering session: which Selenium
calls succeed and what the rendered page contains. -/
structure PageBehaviour where
  /-- `webdriver.Chrome(...)` (line 98) returns without raising. -/
  launchOk : Bool
  /-- `driver.get(url)` (line 101) returns without raising. -/
  navOk : Bool
  /-- the reveal button `//button[contains(text(), 'reviews')]` is found
  (line 106). -/
  revealButton : Bool
  /-- the scrollable `m6QErb` panel is found (line 112). -/
  scrollPanel : Bool
  /-- the ten `execute_script` scroll commands (line 115) all succeed. -/
  scrollOk : Bool
  /-- the `jftiEf` review container elements (line 120), in DOM order. -/
  containers : List ReviewContainer
deriving DecidableEq, Repr

/-- A Python exception, by where it was raised. -/
inductive PyErr where
  | launchFailure
  | navFailure
  | noSuchElement
  | scriptFailure
  | keyError
deriving DecidableEq, Repr

/-- The parse loop (lines 122-131): for each container, look up the
author element (raising if absent), count the rating markers, look up
the body element (raising if absent), and append the record.  The first
missing sub-element raises out of the loop. -/
def parse_containers : List ReviewContainer → Except PyErr (List Review)
  | [] => .ok []
  | c :: rest =>
    match c.author with
    | none => .error .noSuchElement
    | some a =>
      match c.body with
      | none => .error .noSuchElement
      | some b =>
        match parse_containers rest with
        | .error e => .error e
        | .ok rs => .ok (⟨a, c.markers, b⟩ :: rs)

/-- The `try` block of `scrape_reviews` (lines 104-133): find and click
the reveal button, find the scrollable panel, scroll ten times, then
parse the review containers.  Any raise inside it is an `error`. -/
def scrape_try_block (pg : PageBehaviour) : Except PyErr (List Review) :=
  if pg.revealButton then
    if pg.scrollPanel then
      if pg.scrollOk then parse_containers pg.containers
      else .error .scriptFailure
    else .error .noSuchElement
  else .error .noSuchElement

/-- What one `scrape_reviews(place_id)` invocation does: the value it
returns to the caller, or the exception it lets escape, together with
the number of `driver.quit()` calls it performed. -/
structure ScrapeOutcome where
  result : Except PyErr (List Review)
  quits : Nat
deriving Repr

/-- `scrape_reviews` (lines 85-140).  `webdriver.Chrome` (line 98) and
`driver.get` (line 101) run before the `try`, so their exceptions
escape, and in the `driver.get` case without reaching `driver.quit()`
(line 139).  An exception inside the `try` block is caught and replaced
by `reviews = []` (line 137); `driver.quit()` then runs once and the
list is returned. -/
def scrape_reviews (pg : PageBehaviour) : ScrapeOutcome :=
  if ¬ pg.launchOk then ⟨.error .launchFailure, 0⟩
  else if ¬ pg.navOk then ⟨.error .navFailure, 0⟩
  else
    match scrape_try_block pg with
    | .ok rs => ⟨.ok rs, 1⟩
    | .error _ => ⟨.ok [], 1⟩

/-! ## Model of `display_places` (lines 143-165)

Each place dictionary is modelled through the fields `display_places`
reads; a field's value stands for the string Python's `str(...)` renders
it to, and an absent key is `none`.  `place["place_id"]` (line 160)
raises `KeyError` when the key is absent; every other access uses
`.get` with a default. -/

/-- The nested `geometry.location` object: `lat`/`lng` values as their
rendered strings, absent when the key is missing. -/
structure LocationJson where
  lat : Option String
  lng : Option String
deriving DecidableEq, Repr

/-- The `geometry` object, with its optional `location` member. -/
structure GeometryJson where
  location : Option LocationJson
deriving DecidableEq, Repr

/-- One place dictionary, through the keys `display_places` reads. -/
structure PlaceJson where
  name : Option String
  rating : Option String
  place_id : Option String
  geometry : Option GeometryJson
deriving DecidableEq, Repr

/-- One row added to the table (lines 157-163). -/
structure PlaceRow where
  name : String
  rating : String
  place_id : String
  lat : String
  lng : String
deriving DecidableEq, Repr

/-- The row built for one place (lines 152-163): `place.get(k, "N/A")`
defaults, `place.get("geometry", {}).get("location", {})` nesting, and
the bare `place["place_id"]` lookup that raises when absent. -/
def place_row (p : PlaceJson) : Except PyErr PlaceRow :=
  match p.place_id with
  | none => .error .keyError
  | some pid =>
    let location := (p.geometry.getD ⟨none⟩).location.getD ⟨none, none⟩
    .ok ⟨p.name.getD "N/A", p.rating.getD "N/A", pid,
         location.lat.getD "N/A", location.lng.getD "N/A"⟩

/-- `display_places` (lines 143-165): add one row per place in order;
a missing `place_id` key raises out of the loop (and the table is never
printed), otherwise the full table of rows is rendered. -/
def display_places : List PlaceJson → Except PyErr (List PlaceRow)
  | [] => .ok []
  | p :: rest =>
    match place_row p with
    | .error e => .error e
    | .ok r =>
      match display_places rest with
      | .error e => .error e
      | .ok rs => .ok (r :: rs)

/-! ## Theorems about `fetch_places` -/

/-- Every `fetch_trace` run begins with the request carrying the current
`pagetoken` parameter. -/
theorem fetch_trace_head {α : Type} (tok : Option String) (l : List (PageResp α)) :
    ∃ tl, fetch_trace tok l = .request tok :: tl := by
  cases l with
  | nil => exact ⟨[], rfl⟩
  | cons p rest => exact ⟨_, rfl⟩

/-- C1: over a run in which every provider response carries a `results`
array (and the token chain ends at the last response, so every listed
page arrives), `fetch_places` returns the concatenation of every page's
`results` entries in page-arrival order, each page's internal order
preserved, with no deduplication (the concatenation keeps repeats). -/
theorem fetch_places_concat {α : Type} (ps : List (PageResp α))
    (h : allPagesConsumed ps = true) :
    fetch_places ps = (ps.map (fun p => p.results.getD [])).flatten := by
  induction ps with
  | nil => rfl
  | cons p rest ih =>
    cases rest with
    | nil =>
      simp only [allPagesConsumed, Bool.and_eq_true, Bool.not_eq_true'] at h
      obtain ⟨h1, h2⟩ := h
      obtain ⟨rs, hrs⟩ := Option.isSome_iff_exists.mp h1
      simp [fetch_places, hrs, h2]
    | cons q qs =>
      simp only [allPagesConsumed, Bool.and_eq_true] at h
      obtain ⟨⟨h1, h2⟩, h3⟩ := h
      obtain ⟨rs, hrs⟩ := Option.isSome_iff_exists.mp h1
      have step : fetch_places (p :: q :: qs) = rs ++ fetch_places (q :: qs) := by
        simp [fetch_places, hrs, h2]
      rw [step, ih h3]
      simp [hrs]

/-- A two-page run with a repeated entry, for the C1 witness. -/
def c1pages : List (PageResp Nat) :=
  [⟨some [1, 2], some "tokA"⟩, ⟨some [2, 1, 1], none⟩]

/-- C1 witness: on a concrete two-page run the hypothesis holds and the
output is the duplicate-preserving concatenation of both pages. -/
theorem fetch_places_concat_witness :
    allPagesConsumed c1pages = true ∧ fetch_places c1pages = [1, 2, 2, 1, 1] :=
  ⟨by decide, by rw [fetch_places_concat c1pages (by decide)]; decide⟩

/-- C4: if the responses are some pages that each carry `results` and a
truthy token, followed by a response lacking `results`, the loop stops
at that response and returns exactly the entries accumulated from the
prior pages, issuing no further request into `rest` (no retry). -/
theorem fetch_places_stops_without_results {α : Type}
    (good : List (PageResp α)) (bad : PageResp α) (rest : List (PageResp α))
    (hg : ∀ p ∈ good, p.results.isSome ∧ tokenTruthy p.next_page_token = true)
    (hb : bad.results = none) :
    fetch_places (good ++ bad :: rest) = (good.map (fun p => p.results.getD [])).flatten := by
  induction good with
  | nil => simp [fetch_places, hb]
  | cons p gs ih =>
    obtain ⟨h1, h2⟩ := hg p (by simp)
    obtain ⟨rs, hrs⟩ := Option.isSome_iff_exists.mp h1
    simp [fetch_places, hrs, h2, ih (fun q hq => hg q (by simp [hq]))]

/-- C4 witness: one good page, then a response without `results` (its
token notwithstanding), then a page that is never requested: the output
is the good page's entries alone. -/
theorem fetch_places_stops_without_results_witness :
    ((⟨none, some "tokZ"⟩ : PageResp Nat).results = none)
    ∧ fetch_places [(⟨some [7], some "tokB"⟩ : PageResp Nat), ⟨none, some "tokZ"⟩,
        ⟨some [9], none⟩] = [7] := by
  refine ⟨rfl, ?_⟩
  have h := fetch_places_stops_without_results [⟨some [7], some "tokB"⟩]
    ⟨none, some "tokZ"⟩ [⟨some [9], none⟩] (by decide) rfl
  exact h.trans (by decide)

/-- C6 counterexample: two responses that each include a continuation
cursor, after which `fetch_places` never issues a request carrying that
cursor: one lacks `results` (the loop breaks at line 72 before reading
the token), the other's cursor is the empty string (falsy in Python, so
the loop breaks at line 76). -/
theorem fetch_trace_no_reissue_counterexample :
    FetchEvent.request (some "T") ∉
      fetch_trace (α := Unit) none [⟨none, some "T"⟩]
    ∧ FetchEvent.request (some "") ∉
      fetch_trace (α := Unit) none [⟨some [], some ""⟩] := by
  decide

/-- C6 amended: for every provider response that carries a `results`
array and a non-empty continuation cursor, the loop sleeps 2 seconds
(the minimum delay the provider mandates, line 78) and then issues a
further request carrying that cursor as the `pagetoken` parameter. -/
theorem fetch_trace_reissues_cursor {α : Type} (tok : Option String)
    (p : PageResp α) (rest : List (PageResp α)) (t : String)
    (h1 : p.results.isSome) (h2 : p.next_page_token = some t) (h3 : t ≠ "") :
    ∃ tl, fetch_trace tok (p :: rest) =
      .request tok :: .sleep 2 :: .request (some t) :: tl := by
  obtain ⟨rs, hrs⟩ := Option.isSome_iff_exists.mp h1
  obtain ⟨tl, htl⟩ := fetch_trace_head (α := α) (some t) rest
  refine ⟨tl, ?_⟩
  simp [fetch_trace, hrs, h2, tokenTruthy, h3, htl]

/-- C6 witness: a concrete response with entries and cursor "NEXT" is
followed in the trace by a 2-second sleep and a request carrying
"NEXT". -/
theorem fetch_trace_reissues_cursor_witness :
    ∃ tl, fetch_trace (α := Nat) none [⟨some [3], some "NEXT"⟩] =
      .request none :: .sleep 2 :: .request (some "NEXT") :: tl :=
  fetch_trace_reissues_cursor none ⟨some [3], some "NEXT"⟩ [] "NEXT"
    (by decide) rfl (by decide)

/-! ## Theorems about `scrape_reviews` -/

/-- A session behaviour in which `driver.get` raises, used by the C2
counterexample. -/
def c2navFail : PageBehaviour :=
  ⟨true, false, true, true, true, []⟩

/-- C2 counterexample: when `driver.get` (line 101, outside the `try`)
raises, the invocation exits by that exception and `driver.quit()`
(line 139) is never executed, so the session is not terminated on this
exit path. -/
theorem scrape_quit_skipped_counterexample :
    (scrape_reviews c2navFail).quits = 0
    ∧ (scrape_reviews c2navFail).result = .error .navFailure :=
  ⟨rfl, rfl⟩

/-- C2 amended: on every exit path reached after `webdriver.Chrome` and
`driver.get` both return (success, reveal-control-not-found, and every
failure inside the `try` block), `driver.quit()` runs exactly once
before control returns; if launch or navigation raises, the function
exits by that exception without terminating the session. -/
theorem scrape_quits_once (pg : PageBehaviour)
    (h1 : pg.launchOk = true) (h2 : pg.navOk = true) :
    (scrape_reviews pg).quits = 1 := by
  cases htb : scrape_try_block pg <;> simp [scrape_reviews, h1, h2, htb]

/-- C2 witness: a concrete invocation whose reveal control is missing
still terminates the session exactly once. -/
theorem scrape_quits_once_witness :
    (⟨true, true, false, true, true, []⟩ : PageBehaviour).launchOk = true
    ∧ (scrape_reviews ⟨true, true, false, true, true, []⟩).quits = 1 :=
  ⟨rfl, scrape_quits_once ⟨true, true, false, true, true, []⟩ rfl rfl⟩

/-- A session behaviour in which `webdriver.Chrome` raises, and one in
which `driver.get` raises, used by the C3 counterexample. -/
def c3launchFail : PageBehaviour :=
  ⟨false, true, true, true, true, []⟩

/-- A session behaviour in which navigation raises, for the C3
counterexample. -/
def c3navFail : PageBehaviour :=
  ⟨true, false, false, false, false, []⟩

/-- C3 counterexample: exceptions raised by `webdriver.Chrome`
(line 98) or `driver.get` (line 101) are outside the `try` block, so
they escape to the caller instead of being converted into a list. -/
theorem scrape_raises_counterexample :
    (scrape_reviews c3launchFail).result = .error .launchFailure
    ∧ (scrape_reviews c3navFail).result = .error .navFailure :=
  ⟨rfl, rfl⟩

/-- C3 amended: for every behaviour of the rendering session in which
session launch and navigation succeed, `scrape_reviews` returns a list
to its caller and lets no exception escape: any exception during
reveal, scrolling or parsing is caught by the handler at line 135 and
converted into a result list; launch and navigation failures, raised
before the `try` block, escape to the caller. -/
theorem scrape_returns_list (pg : PageBehaviour)
    (h1 : pg.launchOk = true) (h2 : pg.navOk = true) :
    ∃ rs, (scrape_reviews pg).result = .ok rs := by
  cases htb : scrape_try_block pg with
  | ok rs => exact ⟨rs, by simp [scrape_reviews, h1, h2, htb]⟩
  | error e => exact ⟨[], by simp [scrape_reviews, h1, h2, htb]⟩

/-- C3 witness: a concrete invocation whose scroll panel lookup raises
still returns a list. -/
theorem scrape_returns_list_witness :
    ∃ rs, (scrape_reviews ⟨true, true, true, false, true, []⟩).result = .ok rs :=
  scrape_returns_list ⟨true, true, true, false, true, []⟩ rfl rfl

/-- A rendered page with one well-formed container followed by one
whose author element is missing, used by the C5 counterexample. -/
def c5page : PageBehaviour :=
  ⟨true, true, true, true, true,
   [⟨none, 5, some "bad body"⟩, ⟨some "alice", 3, some "great"⟩]⟩

/-- C5 counterexample: one container missing its author element makes
the lookup at line 123 raise out of the whole parse loop into the
handler at line 135, which discards everything: the well-formed
container's review is not returned (the result is the empty list). -/
theorem parse_not_isolated_counterexample :
    (scrape_reviews c5page).result = .ok []
    ∧ (⟨some "alice", 3, some "great"⟩ : ReviewContainer) ∈ c5page.containers :=
  ⟨rfl, by decide⟩

/-- Parsing a container list that contains a container missing its
author or body sub-element raises. -/
theorem parse_containers_error_of_bad (l : List ReviewContainer)
    (hbad : ∃ c ∈ l, c.author = none ∨ c.body = none) :
    ∃ e, parse_containers l = .error e := by
  induction l with
  | nil => simp at hbad
  | cons c rest ih =>
    obtain ⟨c0, hc0, hor⟩ := hbad
    cases hauth : c.author with
    | none => exact ⟨.noSuchElement, by simp [parse_containers, hauth]⟩
    | some a =>
      cases hbody : c.body with
      | none => exact ⟨.noSuchElement, by simp [parse_containers, hauth, hbody]⟩
      | some b =>
        rcases List.mem_cons.mp hc0 with heq | hmem
        · subst heq
          rcases hor with ha | hb
          · rw [hauth] at ha; exact absurd ha (by simp)
          · rw [hbody] at hb; exact absurd hb (by simp)
        · obtain ⟨e, he⟩ := ih ⟨c0, hmem, hor⟩
          exact ⟨e, by simp [parse_containers, hauth, hbody, he]⟩

/-- C5 amended: if any review container is missing its expected author
or body sub-element, the lookup error propagates out of the parse loop
to the invocation-level handler, which aborts the extraction of every
container: `scrape_reviews` returns the empty list, so reviews parsed
from the other containers are not returned. -/
theorem scrape_aborts_all_on_bad_container (pg : PageBehaviour)
    (h1 : pg.launchOk = true) (h2 : pg.navOk = true)
    (h3 : pg.revealButton = true) (h4 : pg.scrollPanel = true)
    (h5 : pg.scrollOk = true)
    (hbad : ∃ c ∈ pg.containers, c.author = none ∨ c.body = none) :
    (scrape_reviews pg).result = .ok [] := by
  obtain ⟨e, he⟩ := parse_containers_error_of_bad pg.containers hbad
  have htb : scrape_try_block pg = .error e := by
    simp [scrape_try_block, h3, h4, h5, he]
  simp [scrape_reviews, h1, h2, htb]

/-- C5 witness: the amended behaviour on the concrete page of the
counterexample. -/
theorem scrape_aborts_all_on_bad_container_witness :
    (∃ c ∈ c5page.containers, c.author = none ∨ c.body = none)
    ∧ (scrape_reviews c5page).result = .ok [] :=
  ⟨⟨⟨none, 5, some "bad body"⟩, by decide, Or.inl rfl⟩,
   scrape_aborts_all_on_bad_container c5page rfl rfl rfl rfl rfl
     ⟨⟨none, 5, some "bad body"⟩, by decide, Or.inl rfl⟩⟩

/-- C7: when the reveal control cannot be located, the `find_element`
at line 106 raises, the handler at line 135 sets the result to the
empty list, and the caller receives the empty sequence rather than an
error. -/
theorem scrape_empty_when_no_reveal (pg : PageBehaviour)
    (h1 : pg.launchOk = true) (h2 : pg.navOk = true)
    (h3 : pg.revealButton = false) :
    (scrape_reviews pg).result = .ok [] := by
  have htb : scrape_try_block pg = .error .noSuchElement := by
    simp [scrape_try_block, h3]
  simp [scrape_reviews, h1, h2, htb]

/-- C7 witness: a concrete page whose reveal control is absent yields
the empty list. -/
theorem scrape_empty_when_no_reveal_witness :
    (scrape_reviews ⟨true, true, false, true, true,
      [⟨some "bob", 4, some "fine"⟩]⟩).result = .ok [] :=
  scrape_empty_when_no_reveal
    ⟨true, true, false, true, true, [⟨some "bob", 4, some "fine"⟩]⟩ rfl rfl rfl

/-- C8: a rendered page exposing exactly one well-formed review
container with author `a`, `n` rating-marker sub-elements and body `b`
yields exactly one review record with those fields, the rating being
the marker count. -/
theorem scrape_single_review (pg : PageBehaviour) (a b : String) (n : Nat)
    (h1 : pg.launchOk = true) (h2 : pg.navOk = true)
    (h3 : pg.revealButton = true) (h4 : pg.scrollPanel = true)
    (h5 : pg.scrollOk = true)
    (hc : pg.containers = [⟨some a, n, some b⟩]) :
    (scrape_reviews pg).result = .ok [⟨a, n, b⟩] := by
  have htb : scrape_try_block pg = .ok [⟨a, n, b⟩] := by
    simp [scrape_try_block, h3, h4, h5, hc, parse_containers]
  simp [scrape_reviews, h1, h2, htb]

/-- C8 witness: a concrete one-container page produces the one matching
record. -/
theorem scrape_single_review_witness :
    (scrape_reviews ⟨true, true, true, true, true,
      [⟨some "carol", 4, some "lovely"⟩]⟩).result = .ok [⟨"carol", 4, "lovely"⟩] :=
  scrape_single_review ⟨true, true, true, true, true,
    [⟨some "carol", 4, some "lovely"⟩]⟩ "carol" "lovely" 4 rfl rfl rfl rfl rfl rfl

/-- C9: whenever the `try` block raises (reveal, scrolling or parsing),
the handler at line 135 rebinds `reviews` to the empty list, so the
caller receives exactly `[]` and any records parsed before the
exception are discarded. -/
theorem scrape_empty_after_caught_exception (pg : PageBehaviour)
    (h1 : pg.launchOk = true) (h2 : pg.navOk = true)
    (e : PyErr) (he : scrape_try_block pg = .error e) :
    (scrape_reviews pg).result = .ok [] := by
  simp [scrape_reviews, h1, h2, he]

/-- C9 witness: a page whose second container raises after the first
parsed cleanly still yields exactly the empty list. -/
theorem scrape_empty_after_caught_exception_witness :
    scrape_try_block ⟨true, true, true, true, true,
      [⟨some "dave", 5, some "good"⟩, ⟨some "erin", 2, none⟩]⟩ = .error .noSuchElement
    ∧ (scrape_reviews ⟨true, true, true, true, true,
      [⟨some "dave", 5, some "good"⟩, ⟨some "erin", 2, none⟩]⟩).result = .ok [] :=
  ⟨rfl, scrape_empty_after_caught_exception ⟨true, true, true, true, true,
    [⟨some "dave", 5, some "good"⟩, ⟨some "erin", 2, none⟩]⟩ rfl rfl
    .noSuchElement rfl⟩

/-! ## Theorems about `display_places` -/

/-- The row rendered for a place whose `place_id` key is present:
`"N/A"` substitutes for a missing name, rating, latitude or
longitude. -/
def rendered_row (p : PlaceJson) : PlaceRow :=
  ⟨p.name.getD "N/A", p.rating.getD "N/A", p.place_id.getD "",
   ((p.geometry.getD ⟨none⟩).location.getD ⟨none, none⟩).lat.getD "N/A",
   ((p.geometry.getD ⟨none⟩).location.getD ⟨none, none⟩).lng.getD "N/A"⟩

/-- C10: if every place record carries the `place_id` key,
`display_places` renders one row per record in order, substituting
`"N/A"` for a missing name, rating, latitude or longitude; if any
record lacks `place_id`, the bare `place["place_id"]` lookup at
line 160 raises `KeyError` and the table is never rendered. -/
theorem display_places_rows (ps : List PlaceJson) :
    ((∀ p ∈ ps, p.place_id.isSome) →
      display_places ps = .ok (ps.map rendered_row))
    ∧ ((∃ p ∈ ps, p.place_id = none) →
      display_places ps = .error .keyError) := by
  induction ps with
  | nil =>
    refine ⟨fun _ => rfl, fun h => ?_⟩
    simp at h
  | cons p rest ih =>
    constructor
    · intro h
      obtain ⟨pid, hpid⟩ := Option.isSome_iff_exists.mp (h p (by simp))
      have hrest := ih.1 (fun q hq => h q (by simp [hq]))
      simp [display_places, place_row, hpid, hrest, rendered_row]
    · intro h
      obtain ⟨q, hq, hqnone⟩ := h
      rcases List.mem_cons.mp hq with heq | hmem
      · subst heq
        simp [display_places, place_row, hqnone]
      · cases hpid : p.place_id with
        | none => simp [display_places, place_row, hpid]
        | some pid =>
          have hrest := ih.2 ⟨q, hmem, hqnone⟩
          simp [display_places, place_row, hpid, hrest]

/-- A place carrying only `place_id`, and a place lacking it, for the
C10 witness. -/
def c10sparse : PlaceJson :=
  ⟨none, none, some "PID7", none⟩

/-- A place record without the `place_id` key, for the C10 witness. -/
def c10noId : PlaceJson :=
  ⟨some "Anon", some "4.5", none, none⟩

/-- C10 witness: a record with only `place_id` renders a row of `"N/A"`
fields around its identifier, and a record lacking `place_id` makes
`display_places` raise. -/
theorem display_places_rows_witness :
    display_places [c10sparse] = .ok [⟨"N/A", "N/A", "PID7", "N/A", "N/A"⟩]
    ∧ display_places [c10noId] = .error .keyError :=
  ⟨(display_places_rows [c10sparse]).1 (by decide),
   (display_places_rows [c10noId]).2 ⟨c10noId, by simp, rfl⟩⟩

end Mapigator
